import Mathlib

set_option maxRecDepth 2048

/-! Verification of the result-aggregation and ranking pipeline of the
mcp-nvidia MCP server (`src/mcp_nvidia/server.py`), as a shallow embedding
in Lean 4.  Python dicts holding search results are modelled as
insertion-ordered association lists over a value type `Val`; the external
collaborators (the ddgs search engine and the httpx page fetcher) are
modelled as explicit oracle arguments, exactly as the repository's own
tests do by patching them. -/

/-- A value stored in a result dict: the server only ever stores strings
and ints in result dicts. -/
inductive Val where
  | str (s : String)
  | int (n : Int)
deriving DecidableEq, Repr

/-- A Python dict with string keys, modelled as an insertion-ordered
association list (the server never creates duplicate keys). -/
abbrev Dict := List (String × Val)

/-- Python `d.get(k)`: the value at the first occurrence of key `k`. -/
def dget (d : Dict) (k : String) : Option Val :=
  (d.find? (fun p => p.1 == k)).map (fun p => p.2)

/-- Python `d.get(k, dflt)` read in a string context.  Every value the
server stores under a text key (`title`, `url`, `snippet`, `domain`) is a
string; the `int` branch renders the value as Python string formatting
would. -/
def dget_str (d : Dict) (k : String) (dflt : String) : String :=
  match dget d k with
  | some (.str s) => s
  | some (.int n) => toString n
  | none => dflt

/-- Python `d.get(k, dflt)` read in an integer context
(`result.get("relevance_score", 0)`). -/
def dget_int (d : Dict) (k : String) (dflt : Int) : Int :=
  match dget d k with
  | some (.int n) => n
  | some (.str _) => dflt
  | none => dflt

/-- Python `d[k] = v`: replace in place when the key is present, else
append at the end (dicts preserve insertion order). -/
def dset (d : Dict) (k : String) (v : Val) : Dict :=
  if (d.find? (fun p => p.1 == k)).isSome then
    d.map (fun p => if p.1 == k then (k, v) else p)
  else d ++ [(k, v)]

/-- Python per-character ASCII lowercasing, `s.lower()` (all strings the
server lowercases are ASCII). -/
def str_lower (s : String) : String := String.mk (s.data.map Char.toLower)

/-- Python `hay.find(pat)` on character lists: index of the first
occurrence, `-1` when absent; the empty pattern is found at index 0. -/
def find_sub (hay pat : List Char) : Int :=
  if pat.isPrefixOf hay then 0
  else match hay with
    | [] => -1
    | _ :: t => let r := find_sub t pat; if r < 0 then -1 else r + 1

/-- Python substring containment `pat in hay`, which holds exactly when
`hay.find(pat) != -1`. -/
def str_contains (hay pat : String) : Bool := find_sub hay.data pat.data != -1

/-- Python `s.split(sep)` for a single-character separator: splitting
never yields the empty list (`"".split(",") == [""]`). -/
def split_on_char (sep : Char) : List Char → List (List Char)
  | [] => [[]]
  | c :: t =>
    let r := split_on_char sep t
    if c == sep then [] :: r else (c :: r.headD []) :: r.tail

/-- Python `s.replace(pat, rep)` for non-empty `pat`: replace each
left-to-right non-overlapping occurrence. -/
def replace_sub (l pat rep : List Char) : List Char :=
  if hp : pat.isEmpty then l
  else match l with
    | [] => []
    | c :: t =>
      if pat.isPrefixOf (c :: t) then rep ++ replace_sub ((c :: t).drop pat.length) pat rep
      else c :: replace_sub t pat rep
termination_by l.length
decreasing_by
  · simp only [List.length_drop, List.length_cons]
    have hp0 : 0 < pat.length := by
      cases pat with
      | nil => simp [List.isEmpty] at hp
      | cons a as => simp
    omega
  · simp

/-- An apostrophe character, used inside strings the server builds. -/
def apos : String := String.singleton (Char.ofNat 39)

/-! ## Domain validation (`validate_nvidia_domain`, server.py lines 33-58)

The function calls `urllib.parse.urlparse` and checks
`parsed.netloc or parsed.path.split('/')[0]` against `nvidia.com`.
We embed the scheme- and netloc-splitting steps of CPython `urlsplit`
that this consumes. -/

/-- Characters CPython allows in a URL scheme (`scheme_chars`). -/
def scheme_char (c : Char) : Bool := c.isAlphanum || c == '+' || c == '-' || c == '.'

/-- The scheme-splitting step of CPython `urlsplit`: when the string has a
`:` preceded by a valid scheme (first char an ASCII letter, every char in
`scheme_chars`), drop the scheme and the colon. -/
def drop_scheme (l : List Char) : List Char :=
  match l.findIdx? (fun c => c == ':') with
  | some i =>
    let pre := l.take i
    if 0 < i && (pre.headD ' ').isAlpha && pre.all scheme_char then l.drop (i+1) else l
  | none => l

/-- The netloc-splitting step of CPython `urlsplit`: after the scheme, a
leading `//` introduces the netloc, which extends to the next `/`, `?` or
`#`; the rest of the string follows. -/
def split_netloc : List Char → List Char × List Char
  | '/' :: '/' :: rest =>
      (rest.takeWhile (fun c => !(c == '/' || c == '?' || c == '#')),
       rest.dropWhile (fun c => !(c == '/' || c == '?' || c == '#')))
  | l => ([], l)

/-- `urlparse(u).path`: the post-netloc remainder with the fragment
(after `#`) and the query (after `?`) stripped. -/
def path_part (l : List Char) : List Char :=
  (l.takeWhile (fun c => c != '#')).takeWhile (fun c => c != '?')

/-- Embedding of `validate_nvidia_domain` (server.py lines 33-58): the
hostname is `parsed.netloc or parsed.path.split('/')[0]`, lowercased, and
must equal `nvidia.com` or end with `.nvidia.com`.  CPython `urlsplit`
raises `ValueError` on an unbalanced bracket in the netloc; the
function's except-branch then returns `False`. -/
def validate_nvidia_domain (domain : String) : Bool :=
  let rest := drop_scheme domain.data
  let (netloc, after) := split_netloc rest
  if (netloc.contains '[' && !netloc.contains ']')
      || (netloc.contains ']' && !netloc.contains '[') then false
  else
    let hostname := if netloc.isEmpty then (path_part after).takeWhile (fun c => c != '/') else netloc
    let h := hostname.map Char.toLower
    h == "nvidia.com".data || ".nvidia.com".data.isSuffixOf h

/-- server.py lines 24-30: the default NVIDIA domains. -/
def DEFAULT_DOMAINS : List String :=
  ["https://developer.nvidia.com/",
   "https://blogs.nvidia.com/",
   "https://nvidianews.nvidia.com/",
   "https://docs.nvidia.com/",
   "https://build.nvidia.com/"]

/-- Python `s.strip()`: drop leading and trailing whitespace. -/
def strip_ws (l : List Char) : List Char :=
  ((l.dropWhile Char.isWhitespace).reverse.dropWhile Char.isWhitespace).reverse

/-- server.py line 63: `[d.strip() for d in custom_domains.split(",") if d.strip()]`. -/
def parse_env_entries (s : String) : List String :=
  ((split_on_char ',' s.data).map (fun l => String.mk (strip_ws l))).filter (fun d => d != "")

/-- Embedding of the module-level environment override of the default
domain list (server.py lines 61-76): when `MCP_NVIDIA_DOMAINS` is unset or
empty the defaults stand; otherwise each comma-separated entry is
stripped, empties are dropped, each survivor is checked with
`validate_nvidia_domain` (invalid entries are skipped with a warning), and
the validated list replaces the defaults when non-empty, else the defaults
are kept with a warning. -/
def resolve_default_domains (env : Option String) : List String :=
  match env with
  | none => DEFAULT_DOMAINS
  | some s =>
    if s == "" then DEFAULT_DOMAINS
    else
      let validated := (parse_env_entries s).filter validate_nvidia_domain
      if validated.isEmpty then DEFAULT_DOMAINS else validated

example : validate_nvidia_domain "https://developer.nvidia.com/" = true := by decide
example : validate_nvidia_domain "https://nvidia.com/" = true := by decide
example : validate_nvidia_domain "developer.nvidia.com/foo" = true := by decide
example : validate_nvidia_domain "https://google.com/" = false := by decide
example : validate_nvidia_domain "https://nvidia-fake.com/" = false := by decide
example : validate_nvidia_domain "https://evil.com/" = false := by decide

/-! ## Snippet enrichment (`fetch_url_context`, server.py lines 113-187) -/

/-- Python `re.sub(r"\s+", " ", s)`: collapse each whitespace run to one
space. -/
def collapse_ws : List Char → List Char
  | [] => []
  | c :: cs =>
    if c.isWhitespace then ' ' :: collapse_ws (cs.dropWhile Char.isWhitespace)
    else c :: collapse_ws cs
termination_by l => l.length
decreasing_by
  · simp only [List.length_cons]
    exact Nat.lt_succ_of_le (List.Sublist.length_le (List.dropWhile_sublist _))
  · simp

/-- Embedding of `fetch_url_context` (server.py lines 113-187).  The page
fetcher collaborator is an oracle `fetch` returning a failure or the
response status code paired with the text content extracted from the page
(`soup.get_text()` after dropping script/style); every failure path falls
back to the original snippet.  On success the function collapses
whitespace, case-insensitively locates the first 50 characters of the
cleaned snippet, slices a `context_chars` window around it, adds ellipses
at cut edges, and wraps the relocated snippet span in `**` markers. -/
def fetch_url_context (fetch : String → Except String (Int × String))
    (url snippet : String) (context_chars : Nat := 200) : String :=
  match fetch url with
  | .error _ => snippet
  | .ok (status, rawText) =>
    if status != 200 then snippet
    else
      let text := strip_ws (collapse_ws rawText.data)
      let snippet_clean := (strip_ws (collapse_ws snippet.data)).map Char.toLower
      let text_lower := text.map Char.toLower
      let pos := find_sub text_lower (snippet_clean.take 50)
      if pos == -1 then snippet
      else
        let p := pos.toNat
        let start := p - context_chars
        let stop := min text.length (p + snippet.length + context_chars)
        let context0 := (text.drop start).take (stop - start)
        let context1 := if 0 < start then "...".data ++ context0 else context0
        let context := if stop < text.length then context1 ++ "...".data else context1
        let snippet_start := find_sub (context.map Char.toLower) (snippet_clean.take 30)
        if snippet_start == -1 then String.mk context
        else
          let ss := snippet_start.toNat
          let se := ss + snippet.length
          String.mk (context.take ss ++ "**".data
            ++ ((context.drop ss).take (se - ss)) ++ "**".data ++ context.drop se)

/-! ## Domain Searcher (`search_nvidia_domain`, server.py lines 190-255) -/

/-- A raw ddgs hit: the server reads the `title`, `href` and `body` keys
with `""` defaults. -/
structure RawHit where
  title : String
  href : String
  body : String
deriving DecidableEq, Repr

/-- server.py line 212: strip the scheme prefixes and trailing slashes
(`domain.replace("https://", "").replace("http://", "").rstrip("/")`). -/
def clean_domain_of (domain : String) : String :=
  let s := replace_sub (replace_sub domain.data "https://".data "".data) "http://".data "".data
  String.mk (s.reverse.dropWhile (fun c => c == '/')).reverse

/-- server.py line 215: the `site:`-scoped engine query. -/
def build_search_query (clean_domain query : String) : String :=
  "site:" ++ clean_domain ++ " " ++ query

/-- The synthetic fallback result appended when the whole per-domain
search fails (server.py lines 248-253). -/
def search_error_result (clean_domain query err : String) : Dict :=
  [("title", .str ("Search error for " ++ apos ++ query ++ apos ++ " on " ++ clean_domain)),
   ("url", .str ("https://" ++ clean_domain)),
   ("snippet", .str ("Search temporarily unavailable. Error: " ++ err)),
   ("domain", .str clean_domain)]

/-- Embedding of `search_nvidia_domain` (server.py lines 190-255).  The
ddgs engine is an oracle `engine` taking the full `site:`-scoped query
and the result cap and returning a failure or the raw hits; the page
fetcher oracle `fetch` drives snippet enrichment.  Hits with an empty
title or url are skipped (`continue`); a failure of the engine call is
caught by the outer `except` and converted into the single synthetic
fallback result.  (The per-hit `try` can only fire through
`fetch_url_context`, which already catches everything itself.) -/
def search_nvidia_domain (engine : String → Nat → Except String (List RawHit))
    (fetch : String → Except String (Int × String))
    (domain query : String) (max_results : Nat) : List Dict :=
  let clean := clean_domain_of domain
  match engine (build_search_query clean query) max_results with
  | .error e => [search_error_result clean query e]
  | .ok hits =>
    hits.foldl (fun acc h =>
      if h.title == "" || h.href == "" then acc
      else
        let enhanced := fetch_url_context fetch h.href h.body
        acc ++ [[("title", Val.str h.title), ("url", Val.str h.href),
                 ("snippet", Val.str enhanced), ("domain", Val.str clean)]]) []

/-! ## Aggregator (`search_all_domains`, server.py lines 258-294) -/

/-- server.py lines 288-292: a gathered task outcome that
`isinstance(results, Exception)` is logged and skipped, a successful one
is kept. -/
def ok_or_nil (r : Except String (List Dict)) : List Dict :=
  match r with
  | .ok rs => rs
  | .error _ => []

/-- Embedding of `search_all_domains` (server.py lines 258-294).  The
per-domain searcher is an oracle `searcher` (the repository's tests patch
`search_nvidia_domain` in exactly this way); `asyncio.gather(*tasks,
return_exceptions=True)` yields one outcome per task in task-submission
order — the order of `domains` — an `Exception` outcome is skipped, and
each surviving per-domain list is appended with `extend`.  `domains is
None` resolves to the module-level default list (embedded here as the
un-overridden `DEFAULT_DOMAINS`; the environment override is modelled
separately by `resolve_default_domains`). -/
def search_all_domains (searcher : String → String → Nat → Except String (List Dict))
    (query : String) (domains : Option (List String)) (max_results_per_domain : Nat) : List Dict :=
  let ds := domains.getD DEFAULT_DOMAINS
  (ds.map (fun d => searcher d query max_results_per_domain)).foldl
    (fun acc r => acc ++ ok_or_nil r) []

/-! ## Content Discovery (`discover_content`, server.py lines 297-389) -/

/-- A content strategy: rewritten query, domain subset, keyword list
(server.py lines 314-340). -/
structure Strategy where
  query : String
  domains : List String
  keywords : List String
deriving DecidableEq, Repr

/-- Embedding of `content_strategies.get(content_type.lower(), fallback)`
(server.py lines 314-346): the five literal strategies, and the generic
fallback built from the raw topic plus the (un-lowered) content type, the
module default domains, and an empty keyword list. -/
def strategy_for (content_type topic : String) : Strategy :=
  let k := str_lower content_type
  if k == "video" then
    ⟨topic ++ " video OR tutorial",
     ["https://developer.nvidia.com/", "https://blogs.nvidia.com/"],
     ["youtube", "video", "watch", "tutorial"]⟩
  else if k == "course" then
    ⟨topic ++ " course OR training OR certification",
     ["https://developer.nvidia.com/"],
     ["course", "training", "dli", "certification", "learn"]⟩
  else if k == "tutorial" then
    ⟨topic ++ " tutorial OR guide OR how-to",
     ["https://developer.nvidia.com/", "https://docs.nvidia.com/"],
     ["tutorial", "guide", "how-to", "getting started"]⟩
  else if k == "webinar" then
    ⟨topic ++ " webinar OR event OR session",
     ["https://developer.nvidia.com/", "https://blogs.nvidia.com/"],
     ["webinar", "event", "session", "livestream"]⟩
  else if k == "blog" then
    ⟨topic, ["https://blogs.nvidia.com/"], ["blog", "article", "post"]⟩
  else
    ⟨topic ++ " " ++ content_type, DEFAULT_DOMAINS, []⟩

/-- server.py lines 368-375: the raw weighted keyword-match score — per
keyword, 3 when it occurs in the (pre-lowercased) title, 2 in the
snippet, 1 in the url, all three tested independently. -/
def raw_keyword_score (keywords : List String) (title snippet url : String) : Nat :=
  keywords.foldl (fun acc kw =>
    let a := if str_contains title kw then acc + 3 else acc
    let b := if str_contains snippet kw then a + 2 else a
    if str_contains url kw then b + 1 else b) 0

/-- server.py lines 377-381: `int((raw_score / max_possible_score) * 100)`
when `max_possible_score > 0`, else `0`.  Python evaluates the ratio in
binary floating point and `int` truncates toward zero; for every
reachable value (`raw ≤ max_possible ≤ 30`: the keyword lists hold at
most 5 entries) the float computation truncates to exactly
`⌊100 * raw / max_possible⌋`, which is what we embed as Nat division. -/
def normalized_score (raw max_possible : Nat) : Nat :=
  if 0 < max_possible then (100 * raw) / max_possible else 0

/-- One insertion step of a stable descending sort on
`x.get("relevance_score", 0)`: the new element goes after every
already-placed element with a key ≥ its own. -/
def insert_desc (sorted : List Dict) (r : Dict) : List Dict :=
  match sorted with
  | [] => [r]
  | x :: xs =>
    if dget_int r "relevance_score" 0 ≤ dget_int x "relevance_score" 0 then
      x :: insert_desc xs r
    else r :: x :: xs

/-- server.py line 387: `filtered_results.sort(key=lambda x:
x.get("relevance_score", 0), reverse=True)` — Python sort is stable, so
among equal keys the earlier element stays earlier; a stable descending
sort is unique, and this insertion sort computes it. -/
def sort_desc (l : List Dict) : List Dict := l.foldl insert_desc []

/-- Embedding of `discover_content` (server.py lines 297-389): resolve the
strategy, search its domains with its rewritten query (`max_results` per
domain), score every merged result with the strategy keywords
(overwriting `relevance_score`; nothing is discarded), sort stably by
descending score, and truncate to `max_results` total. -/
def discover_content (searcher : String → String → Nat → Except String (List Dict))
    (content_type topic : String) (max_results : Nat) : List Dict :=
  let strat := strategy_for content_type topic
  let results := search_all_domains searcher strat.query (some strat.domains) max_results
  let keywords := strat.keywords
  let max_possible := keywords.length * 6
  let scored := results.map (fun r =>
    let title := str_lower (dget_str r "title" "")
    let snippet := str_lower (dget_str r "snippet" "")
    let url := str_lower (dget_str r "url" "")
    dset r "relevance_score"
      (Val.int (normalized_score (raw_keyword_score keywords title snippet url) max_possible)))
  (sort_desc scored).take max_results

/-! ## Formatters (server.py lines 82-110 and 392-425) -/

/-- Python `c * n` for a single character. -/
def repeat_str (c : Char) (n : Nat) : String := String.mk (List.replicate n c)

/-- Python `s * n`. -/
def str_repeat (s : String) (n : Nat) : String := String.mk (List.flatten (List.replicate n s.data))

/-- Python `s.upper()` (ASCII). -/
def str_upper (s : String) : String := String.mk (s.data.map Char.toUpper)

/-- The star literal at server.py line 405: the source file holds the two
characters U+00E2 U+00AD (a mojibake of the star emoji). -/
def star_str : String := String.mk [Char.ofNat 226, Char.ofNat 173]

/-- The per-result block of `format_search_results` (server.py lines
91-98): title line, then URL / snippet / source lines for the truthy
fields. -/
def format_result_block (i : Nat) (r : Dict) : List String :=
  ("\n" ++ toString i ++ ". " ++ dget_str r "title" "Untitled") ::
  ((if dget_str r "url" "" != "" then ["   URL: " ++ dget_str r "url" ""] else []) ++
   (if dget_str r "snippet" "" != "" then ["   " ++ dget_str r "snippet" ""] else []) ++
   (if dget_str r "domain" "" != "" then ["   Source: " ++ dget_str r "domain" ""] else []))

/-- The per-result citation block (server.py lines 104-108 and 419-423). -/
def format_citation_block (i : Nat) (r : Dict) : List String :=
  if dget_str r "url" "" != "" then
    ["[" ++ toString i ++ "] " ++ dget_str r "title" "Untitled",
     "    " ++ dget_str r "url" ""]
  else []

/-- Embedding of `format_search_results` (server.py lines 82-110). -/
def format_search_results (results : List Dict) (query : String) : String :=
  if results.isEmpty then "No results found for query: " ++ query
  else
    String.intercalate "\n"
      (["Search results for: " ++ query ++ "\n", repeat_str '=' 60]
       ++ ((List.enumFrom 1 results).map (fun p => format_result_block p.1 p.2)).flatten
       ++ ["\n" ++ repeat_str '=' 60, "\nCITATIONS:", repeat_str '-' 60]
       ++ ((List.enumFrom 1 results).map (fun p => format_citation_block p.1 p.2)).flatten)

/-- The per-result block of `format_content_results` (server.py lines
400-413): star rating from the 0-100 score (`score // 20 + 1`, clamped to
1..5), the score, then the truthy optional fields. -/
def content_result_block (i : Nat) (r : Dict) : List String :=
  let score := dget_int r "relevance_score" 0
  let stars := max 1 (min 5 (Int.ediv score 20 + 1))
  let relevance := str_repeat star_str stars.toNat
  ("\n" ++ toString i ++ ". " ++ dget_str r "title" "Untitled" ++ " " ++ relevance
     ++ " (Score: " ++ toString score ++ "/100)") ::
  ((if dget_str r "url" "" != "" then ["   URL: " ++ dget_str r "url" ""] else []) ++
   (if dget_str r "snippet" "" != "" then ["   " ++ dget_str r "snippet" ""] else []) ++
   (if dget_str r "domain" "" != "" then ["   Source: " ++ dget_str r "domain" ""] else []))

/-- Embedding of `format_content_results` (server.py lines 392-425). -/
def format_content_results (results : List Dict) (content_type topic : String) : String :=
  if results.isEmpty then "No " ++ content_type ++ " content found for topic: " ++ topic
  else
    String.intercalate "\n"
      (["Recommended " ++ str_upper content_type ++ " content for: " ++ topic ++ "\n",
        repeat_str '=' 60]
       ++ ((List.enumFrom 1 results).map (fun p => content_result_block p.1 p.2)).flatten
       ++ ["\n" ++ repeat_str '=' 60, "\nRESOURCE LINKS:", repeat_str '-' 60]
       ++ ((List.enumFrom 1 results).map (fun p => format_citation_block p.1 p.2)).flatten)

/-! ## Tool-call handler (`call_tool`, server.py lines 505-560) -/

/-- The argument object of a tool call; `none` models an absent key, read
with `arguments.get(...)`. -/
structure ToolArgs where
  query : Option String
  domains : Option (List String)
  max_results_per_domain : Option Nat
  content_type : Option String
  topic : Option String
  max_results : Option Nat
deriving Repr

/-- A `ToolArgs` with every key absent. -/
def noArgs : ToolArgs := ⟨none, none, none, none, none, none⟩

/-- Python `not s` for an optional string: `None` and `""` are falsy. -/
def falsy_str (s : Option String) : Bool := s.getD "" == ""

/-- Embedding of the `call_tool` handler (server.py lines 505-560),
parametric in the per-domain searcher oracle.  A raised `ValueError` is
an `Except.error`; a returned `TextContent` sequence is the list of its
text payloads.  The handler validates only that `query` (resp.
`content_type` and `topic`) is present and truthy, then runs the search
and formats the outcome. -/
def call_tool (searcher : String → String → Nat → Except String (List Dict))
    (name : String) (arguments : ToolArgs) : Except String (List String) :=
  if name == "search_nvidia" then
    if falsy_str arguments.query then .error "Query parameter is required"
    else
      let query := arguments.query.getD ""
      let results := search_all_domains searcher query arguments.domains
        (arguments.max_results_per_domain.getD 3)
      .ok [format_search_results results query]
  else if name == "discover_nvidia_content" then
    if falsy_str arguments.content_type || falsy_str arguments.topic then
      .error "Both content_type and topic parameters are required"
    else
      let ct := arguments.content_type.getD ""
      let topic := arguments.topic.getD ""
      let results := discover_content searcher ct topic (arguments.max_results.getD 5)
      .ok [format_content_results results ct topic]
  else .error ("Unknown tool: " ++ name)

/-! ## The Ad Filter, modelled from the spec

`is_ad_url` is code of this repository that is absent from `src/`: only
its tests reference it (`tests/test_client.py` imports `is_ad_url` from
`mcp_nvidia.server`, which does not define it). -/

/-- Modelled from the spec: the fixed ad-related query parameter names of
the Ad Filter (spec section 4.2 "ad-domain, ad-provider, ad-type, ad-url,
ad-click markers", concretized by the vectors in `test_ad_url_blocking`). -/
def ad_param_names : List String := ["ad_domain", "ad_provider", "ad_type", "adurl", "adclick"]

/-- The query string of a URL: everything after the first `?`, with a
fragment stripped. -/
def url_query_string (url : String) : List Char :=
  ((url.data.dropWhile (fun c => c != '?')).drop 1).takeWhile (fun c => c != '#')

/-- The query parameter names of a URL: the part before `=` of each
`&`-separated piece. -/
def url_query_param_names (url : String) : List String :=
  (split_on_char '&' (url_query_string url)).map
    (fun p => String.mk ((split_on_char '=' p).headD []))

/-- Modelled from the spec: the Ad Filter predicate `is_ad_url`, absent
from `src/` (spec section 4.2): true iff the URL's host is the known
redirect/ad host `duckduckgo.com` and it carries an ad-tracking query
parameter, or the URL carries any of the fixed ad-related parameter names
regardless of host. -/
def is_ad_url (url : String) : Bool :=
  let params := url_query_param_names url
  ((split_netloc (drop_scheme url.data)).1 == "duckduckgo.com".data
      && params.any (fun p => ad_param_names.contains p))
    || params.any (fun p => ad_param_names.contains p)

example : is_ad_url "https://duckduckgo.com/y.js?ad_domain=wyzant.com" = true := by decide
example : is_ad_url "https://example.com/?adurl=https://ad.example" = true := by decide
example : is_ad_url "https://developer.nvidia.com/cuda" = false := by decide

/-! ## Fixtures used by the claim theorems -/

/-- A benign searcher oracle: one result per domain, echoing the domain. -/
def echo_searcher : String → String → Nat → Except String (List Dict) :=
  fun d _ _ => .ok [[("title", Val.str ("Result from " ++ d)),
                     ("url", Val.str d),
                     ("snippet", Val.str "a snippet"),
                     ("domain", Val.str d)]]

/-- The advertisement result used against C2: its url is one of the ad
vectors of `test_ad_url_blocking`. -/
def ad_result : Dict :=
  [("title", Val.str "Sponsored result"),
   ("url", Val.str "https://duckduckgo.com/y.js?ad_domain=wyzant.com"),
   ("snippet", Val.str "an advertisement"),
   ("domain", Val.str "developer.nvidia.com")]

/-- A searcher oracle that yields the ad result for every domain. -/
def ad_searcher : String → String → Nat → Except String (List Dict) :=
  fun _ _ _ => .ok [ad_result]

/-- The two mock results of the repository test
`test_search_filters_by_min_relevance_score`. -/
def high_result : Dict :=
  [("title", Val.str "High relevance result"),
   ("url", Val.str "https://developer.nvidia.com/high"),
   ("snippet", Val.str "CUDA programming guide"),
   ("domain", Val.str "developer.nvidia.com")]

/-- See `high_result`. -/
def low_result : Dict :=
  [("title", Val.str "Low relevance result"),
   ("url", Val.str "https://developer.nvidia.com/low"),
   ("snippet", Val.str "Some other content"),
   ("domain", Val.str "developer.nvidia.com")]

/-- The searcher oracle of `test_search_filters_by_min_relevance_score`:
both mock results for every domain. -/
def mock_searcher : String → String → Nat → Except String (List Dict) :=
  fun _ _ _ => .ok [high_result, low_result]

/-- A 501-character query, as in `test_query_length_validation`. -/
def long_query : String := String.mk (List.replicate 501 'A')

/-! ## C1 -/

/-- C1 (code bug): the `call_tool` handler performs no domain validation:
with a caller-supplied `domains` list holding the invalid entry
`https://google.com/` next to a valid one, the handler succeeds, the
search runs on both entries — the invalid one first — and no failure
arises at all (the outcome is `.ok`, so in particular no failure message
mentioning "Invalid domains detected" exists), although
`validate_nvidia_domain` rejects the entry and the repository test
`test_call_tool_validates_domains` demands a `ValueError`. -/
theorem c1_call_tool_skips_domain_validation :
    call_tool echo_searcher "search_nvidia"
        ⟨some "test", some ["https://google.com/", "https://developer.nvidia.com/"],
         none, none, none, none⟩
      = Except.ok [format_search_results
          (ok_or_nil (echo_searcher "https://google.com/" "test" 3)
            ++ ok_or_nil (echo_searcher "https://developer.nvidia.com/" "test" 3)) "test"]
    ∧ validate_nvidia_domain "https://google.com/" = false
    ∧ (call_tool echo_searcher "search_nvidia"
        ⟨some "test", some ["https://google.com/", "https://developer.nvidia.com/"],
         none, none, none, none⟩).isOk = true :=
  ⟨rfl, by decide, rfl⟩

/-! ## C2 -/

/-- C2 (code bug): the aggregator neither scores nor ad-filters: a result
whose url satisfies the (spec-modelled) Ad Filter passes through
`search_all_domains` unchanged, and the emitted result carries no
`relevance_score` key at all. -/
theorem c2_aggregator_emits_unscored_ad_results :
    search_all_domains ad_searcher "CUDA" (some ["https://developer.nvidia.com/"]) 5
      = [ad_result]
    ∧ is_ad_url (dget_str ad_result "url" "") = true
    ∧ dget ad_result "relevance_score" = none :=
  ⟨rfl, by decide, by decide⟩

/-! ## C3 -/

/-- C3 (code bug): with the searcher patched exactly as in the repository
test `test_search_filters_by_min_relevance_score`, `search_all_domains`
returns the plain merge over the five default domains — each per-domain
pair in submission order — and no result is scored against the query (no
`relevance_score` key exists), so nothing is thresholded at 33 or sorted
by score. -/
theorem c3_aggregator_does_not_score_threshold_or_sort :
    search_all_domains mock_searcher "CUDA programming" none 2
      = [high_result, low_result, high_result, low_result, high_result, low_result,
         high_result, low_result, high_result, low_result]
    ∧ ∀ r ∈ search_all_domains mock_searcher "CUDA programming" none 2,
        dget r "relevance_score" = none :=
  ⟨rfl, by decide⟩

/-! ## C6 -/

/-- C6 (code bug): the `call_tool` handler performs no query-length
validation: the 501-character query of `test_query_length_validation` is
accepted and the search runs — the outcome is `.ok`, so no failure
payload exists, in particular none whose message contains "too long". -/
theorem c6_call_tool_skips_length_validation :
    long_query.length = 501
    ∧ call_tool echo_searcher "search_nvidia"
        ⟨some long_query, none, none, none, none, none⟩
      = Except.ok [format_search_results
          (search_all_domains echo_searcher long_query none 3) long_query]
    ∧ (call_tool echo_searcher "search_nvidia"
        ⟨some long_query, none, none, none, none, none⟩).isOk = true :=
  ⟨by decide, rfl, rfl⟩

/-! ## C10 -/

/-- The `extend`-fold of the aggregator is the flatten of the surviving
per-domain lists. -/
theorem foldl_extend_eq (l : List (Except String (List Dict))) (acc : List Dict) :
    l.foldl (fun acc r => acc ++ ok_or_nil r) acc = acc ++ (l.map ok_or_nil).flatten := by
  induction l generalizing acc with
  | nil => simp
  | cons h t ih => simp [List.foldl_cons, ih]

/-- C10 (confirmed): for any fixed per-domain outcomes of the Domain
Searcher, `search_all_domains` returns exactly the concatenation of the
surviving per-domain lists, ordered by the position of each domain in
the input list (gather yields outcomes in task-submission order) with
each per-domain list kept intact — a deterministic merge independent of
completion order. -/
theorem c10_merge_is_ordered_concatenation
    (searcher : String → String → Nat → Except String (List Dict))
    (query : String) (ds : List String) (n : Nat) :
    search_all_domains searcher query (some ds) n
      = (ds.map (fun d => ok_or_nil (searcher d query n))).flatten := by
  simp [search_all_domains, foldl_extend_eq, List.map_map, Function.comp_def]

/-! ## C5 -/

/-- An always-failing engine oracle. -/
def failing_engine : String → Nat → Except String (List RawHit) := fun _ _ => .error "boom"

/-- An unavailable page-fetch oracle. -/
def no_fetch : String → Except String (Int × String) := fun _ => .error "no network"

/-- C5 (confirmed): the Domain Searcher fails soft: its embedding is a
total function into plain result lists — mirroring the catch-all
`except` that keeps every engine/parse/network failure inside — and when
the engine call fails the output is exactly the single synthetic
placeholder for that domain, whose snippet announces the search as
temporarily unavailable. -/
theorem c5_domain_searcher_fails_soft
    (engine : String → Nat → Except String (List RawHit))
    (fetch : String → Except String (Int × String))
    (domain query : String) (n : Nat) (e : String)
    (he : engine (build_search_query (clean_domain_of domain) query) n = Except.error e) :
    search_nvidia_domain engine fetch domain query n
      = [search_error_result (clean_domain_of domain) query e]
    ∧ "unavailable".data
        <:+: (dget_str (search_error_result (clean_domain_of domain) query e) "snippet" "").data := by
  constructor
  · simp only [search_nvidia_domain]
    rw [he]
  · have hsnip : dget_str (search_error_result (clean_domain_of domain) query e) "snippet" ""
        = "Search temporarily unavailable. Error: " ++ e := rfl
    rw [hsnip]
    refine ⟨"Search temporarily ".data, ". Error: ".data ++ e.data, ?_⟩
    rw [String.data_append]
    rfl

/-- Witness for C5 at a concrete failing engine. -/
theorem c5_domain_searcher_fails_soft_witness :
    search_nvidia_domain failing_engine no_fetch "https://developer.nvidia.com/" "CUDA" 3
      = [search_error_result (clean_domain_of "https://developer.nvidia.com/") "CUDA" "boom"]
    ∧ "unavailable".data
        <:+: (dget_str (search_error_result (clean_domain_of "https://developer.nvidia.com/")
                "CUDA" "boom") "snippet" "").data :=
  c5_domain_searcher_fails_soft failing_engine no_fetch
    "https://developer.nvidia.com/" "CUDA" 3 "boom" rfl

/-! ## C7 -/

/-- C7 counterexample: for the unknown content type "podcast" with topic
"CUDA", the fallback strategy's query is "CUDA podcast" — the topic with
the content type appended — not the raw topic string "CUDA" alone, as
the claim asserts. -/
theorem c7_counterexample_fallback_query_not_raw_topic :
    (strategy_for "podcast" "CUDA").query = "CUDA podcast"
    ∧ (strategy_for "podcast" "CUDA").query ≠ "CUDA" :=
  ⟨by decide, by decide⟩

/-- C7 (amended): for every content type that matches none of the five
known tags after lowercasing, the strategy lookup of `discover_content`
falls back to the generic strategy whose query is the topic followed by
a space and the raw content-type string, whose domain set is the full
default list, and whose keyword list is empty. -/
theorem c7_amended_fallback_strategy (content_type topic : String)
    (h : str_lower content_type ∉ ["video", "course", "tutorial", "webinar", "blog"]) :
    strategy_for content_type topic
      = ⟨topic ++ " " ++ content_type, DEFAULT_DOMAINS, []⟩ := by
  simp only [List.mem_cons, List.not_mem_nil, or_false, not_or] at h
  obtain ⟨h1, h2, h3, h4, h5⟩ := h
  simp [strategy_for, h1, h2, h3, h4, h5]

/-- Witness for the amended C7 at the unknown type "podcast". -/
theorem c7_amended_fallback_strategy_witness :
    strategy_for "podcast" "CUDA" = ⟨"CUDA" ++ " " ++ "podcast", DEFAULT_DOMAINS, []⟩ :=
  c7_amended_fallback_strategy "podcast" "CUDA" (by decide)

/-! ## C8 -/

/-- `dget` after `dset` at the set key yields the set value. -/
theorem find?_map_replace (d : Dict) (k : String) (v : Val)
    (h : (d.find? (fun p => p.1 == k)).isSome = true) :
    dget (d.map (fun p => if p.1 == k then (k, v) else p)) k = some v := by
  induction d with
  | nil => simp at h
  | cons p ps ih =>
    by_cases hpk : (p.1 == k) = true
    · simp [dget, List.find?, hpk]
    · have h2 : (ps.find? (fun p => p.1 == k)).isSome = true := by
        simpa [List.find?, hpk] using h
      simpa [dget, List.find?, hpk] using ih h2

/-- `dget` of an appended fresh key yields the appended value. -/
theorem dget_append_absent (d : Dict) (k : String) (v : Val)
    (h : (d.find? (fun p => p.1 == k)).isSome = false) :
    dget (d ++ [(k, v)]) k = some v := by
  induction d with
  | nil => simp [dget, List.find?]
  | cons p ps ih =>
    by_cases hpk : (p.1 == k) = true
    · simp [List.find?, hpk] at h
    · have h2 : (ps.find? (fun p => p.1 == k)).isSome = false := by
        simpa [List.find?, hpk] using h
      simpa [dget, List.find?, hpk] using ih h2

/-- Reading the key just written by `dset`. -/
theorem dget_dset_self (d : Dict) (k : String) (v : Val) :
    dget (dset d k v) k = some v := by
  unfold dset
  split
  · exact find?_map_replace d k v (by assumption)
  · rename_i h
    exact dget_append_absent d k v (by simp only [Bool.not_eq_true] at h; exact h)

/-- The in-place replacement of `dset` leaves other keys unread. -/
theorem dget_map_replace_ne (d : Dict) (k k2 : String) (v : Val) (h : k2 ≠ k) :
    dget (d.map (fun p => if p.1 == k then (k, v) else p)) k2 = dget d k2 := by
  induction d with
  | nil => rfl
  | cons p ps ih =>
    by_cases hpk : (p.1 == k) = true
    · have hp1 : p.1 = k := eq_of_beq hpk
      have hk2 : (k == k2) = false := beq_eq_false_iff_ne.mpr (fun hx => h hx.symm)
      have hpk2 : (p.1 == k2) = false := by rw [hp1]; exact hk2
      simpa [dget, List.find?, hpk, hk2, hpk2] using ih
    · by_cases hpk2 : (p.1 == k2) = true
      · simp [dget, List.find?, hpk, hpk2]
      · simpa [dget, List.find?, hpk, hpk2] using ih

/-- The fresh-key append of `dset` leaves other keys unread. -/
theorem dget_append_single_ne (d : Dict) (k k2 : String) (v : Val) (h : k2 ≠ k) :
    dget (d ++ [(k, v)]) k2 = dget d k2 := by
  induction d with
  | nil =>
    have hk2 : (k == k2) = false := beq_eq_false_iff_ne.mpr (fun hx => h hx.symm)
    simp [dget, List.find?, hk2]
  | cons p ps ih =>
    by_cases hpk2 : (p.1 == k2) = true
    · simp [dget, List.find?, hpk2]
    · simpa [dget, List.find?, hpk2] using ih

/-- `dset` at one key does not change `dget` at another. -/
theorem dget_dset_ne (d : Dict) (k k2 : String) (v : Val) (h : k2 ≠ k) :
    dget (dset d k v) k2 = dget d k2 := by
  unfold dset
  split
  · exact dget_map_replace_ne d k k2 v h
  · exact dget_append_single_ne d k k2 v h

/-- `dset` at one key does not change `dget_str` at another. -/
theorem dget_str_dset_ne (d : Dict) (k k2 : String) (v : Val) (dflt : String)
    (h : k2 ≠ k) : dget_str (dset d k v) k2 dflt = dget_str d k2 dflt := by
  unfold dget_str
  rw [dget_dset_ne d k k2 v h]

/-- Membership through one insertion step of the stable sort. -/
theorem mem_insert_desc {a r : Dict} {l : List Dict} :
    a ∈ insert_desc l r ↔ a = r ∨ a ∈ l := by
  induction l with
  | nil => simp [insert_desc]
  | cons x xs ih =>
    unfold insert_desc
    split
    · simp only [List.mem_cons, ih]
      tauto
    · simp only [List.mem_cons]

/-- Membership through the fold of the stable sort. -/
theorem mem_foldl_insert_desc {a : Dict} (l acc : List Dict) :
    a ∈ l.foldl insert_desc acc ↔ a ∈ acc ∨ a ∈ l := by
  induction l generalizing acc with
  | nil => simp
  | cons x xs ih =>
    rw [List.foldl_cons, ih]
    simp only [mem_insert_desc, List.mem_cons]
    tauto

/-- The stable sort keeps exactly the members of its input. -/
theorem mem_sort_desc {a : Dict} (l : List Dict) : a ∈ sort_desc l ↔ a ∈ l := by
  unfold sort_desc
  rw [mem_foldl_insert_desc]
  simp

/-- The raw-score fold equals the per-keyword weighted sum. -/
theorem raw_keyword_score_eq_sum (kws : List String) (t s u : String) :
    raw_keyword_score kws t s u
      = (kws.map (fun kw =>
          (if str_contains t kw then 3 else 0)
          + (if str_contains s kw then 2 else 0)
          + (if str_contains u kw then 1 else 0))).sum := by
  have key : ∀ (l : List String) (acc : Nat),
      (l.foldl (fun acc kw =>
        let a := if str_contains t kw then acc + 3 else acc
        let b := if str_contains s kw then a + 2 else a
        if str_contains u kw then b + 1 else b) acc)
      = acc + (l.map (fun kw =>
          (if str_contains t kw then 3 else 0)
          + (if str_contains s kw then 2 else 0)
          + (if str_contains u kw then 1 else 0))).sum := by
    intro l
    induction l with
    | nil => intro acc; simp
    | cons kw l ih =>
      intro acc
      rw [List.foldl_cons, ih, List.map_cons, List.sum_cons]
      dsimp only
      split_ifs <;> omega
  simpa using key kws 0

/-- The C8 claim, amended: spec section 4.4's weighted formula with
`round` corrected to the floor that Python `int()` truncation computes:
raw is the sum over keywords of 3 per title hit, 2 per snippet hit and 1
per url hit; `max_possible = len(keywords) * 6`; the score is
`⌊100 * raw / max_possible⌋` when `max_possible > 0`, else 0.  Stated
from the amended claim's words, for comparison against the code's
`normalized_score` over `raw_keyword_score`. -/
def amended_score_formula (kws : List String) (t s u : String) : Nat :=
  let raw := (kws.map (fun kw =>
    (if str_contains t kw then 3 else 0)
    + (if str_contains s kw then 2 else 0)
    + (if str_contains u kw then 1 else 0))).sum
  if 0 < kws.length * 6 then (100 * raw) / (kws.length * 6) else 0

/-- The C8 claim's original formula, following the spec's words (section
4.4): `round(100 * raw / max_possible)` — nearest integer, halves to
even as Python `round` rounds — when `max_possible > 0`, else 0. -/
def spec_round_score (kws : List String) (t s u : String) : Nat :=
  let raw := (kws.map (fun kw =>
    (if str_contains t kw then 3 else 0)
    + (if str_contains s kw then 2 else 0)
    + (if str_contains u kw then 1 else 0))).sum
  let mp := kws.length * 6
  if 0 < mp then
    if 2 * ((100 * raw) % mp) < mp then (100 * raw) / mp
    else if mp < 2 * ((100 * raw) % mp) then (100 * raw) / mp + 1
    else if (100 * raw) / mp % 2 = 0 then (100 * raw) / mp else (100 * raw) / mp + 1
  else 0

/-- The fixture of the C8 counterexample: raw weighted score 5 against
the "video" strategy keywords (3 from "video" in the title, 2 from
"watch" in the snippet), with max_possible 24. -/
def c8_result : Dict :=
  [("title", Val.str "NVIDIA video news"),
   ("url", Val.str "https://b.example/x"),
   ("snippet", Val.str "watch the stream"),
   ("domain", Val.str "blogs.nvidia.com")]

/-- A searcher oracle yielding the C8 fixture for every domain. -/
def c8_searcher : String → String → Nat → Except String (List Dict) :=
  fun _ _ _ => .ok [c8_result]

/-- C8 counterexample: on this result `discover_content` stores
relevance 20 = ⌊100·5/24⌋ — Python `int()` truncation of 20.83… — while
the claimed `round` formula yields 21, so the claim's "exact formula" is
not the one the code computes. -/
theorem c8_counterexample_truncation_not_round :
    (discover_content c8_searcher "video" "CUDA" 5).head?
      = some (dset c8_result "relevance_score" (Val.int 20))
    ∧ spec_round_score (strategy_for "video" "CUDA").keywords
        (str_lower (dget_str c8_result "title" ""))
        (str_lower (dget_str c8_result "snippet" ""))
        (str_lower (dget_str c8_result "url" "")) = 21
    ∧ (20 : Int) ≠ 21 :=
  ⟨by decide, by decide, by decide⟩

/-- C8 (amended): every result `discover_content` emits carries a
`relevance_score` equal to the amended formula — the weighted sum with
floor normalization, not rounding — evaluated with the strategy's
keyword list on the result's own lowercased title, snippet and url. -/
theorem c8_amended_rescoring
    (searcher : String → String → Nat → Except String (List Dict))
    (content_type topic : String) (n : Nat) (r : Dict)
    (hr : r ∈ discover_content searcher content_type topic n) :
    dget r "relevance_score"
      = some (Val.int (amended_score_formula (strategy_for content_type topic).keywords
          (str_lower (dget_str r "title" ""))
          (str_lower (dget_str r "snippet" ""))
          (str_lower (dget_str r "url" "")))) := by
  simp only [discover_content] at hr
  have h2 := List.mem_of_mem_take hr
  rw [mem_sort_desc] at h2
  obtain ⟨r0, hr0, rfl⟩ := List.mem_map.mp h2
  rw [dget_dset_self,
      dget_str_dset_ne _ _ _ _ _ (by decide),
      dget_str_dset_ne _ _ _ _ _ (by decide),
      dget_str_dset_ne _ _ _ _ _ (by decide)]
  simp [amended_score_formula, normalized_score, raw_keyword_score_eq_sum]

/-- Witness for the amended C8 on the concrete fixture. -/
theorem c8_amended_rescoring_witness :
    dget (dset c8_result "relevance_score" (Val.int 20)) "relevance_score"
      = some (Val.int (amended_score_formula (strategy_for "video" "CUDA").keywords
          (str_lower (dget_str (dset c8_result "relevance_score" (Val.int 20)) "title" ""))
          (str_lower (dget_str (dset c8_result "relevance_score" (Val.int 20)) "snippet" ""))
          (str_lower (dget_str (dset c8_result "relevance_score" (Val.int 20)) "url" "")))) :=
  c8_amended_rescoring c8_searcher "video" "CUDA" 5 _ (by decide)

/-! ## C9 -/

/-- C9 (confirmed): for a non-empty environment override string, each
comma-separated entry is validated with the Domain Validator; when the
valid subset is non-empty it replaces the default set, and when it is
empty the default set is kept — fallback, not the caller-path's
fail-closed rejection. -/
theorem c9_env_override_validates_and_falls_back (s : String) (hs : s ≠ "") :
    ((parse_env_entries s).filter validate_nvidia_domain ≠ [] →
        resolve_default_domains (some s)
          = (parse_env_entries s).filter validate_nvidia_domain)
    ∧ ((parse_env_entries s).filter validate_nvidia_domain = [] →
        resolve_default_domains (some s) = DEFAULT_DOMAINS) := by
  have hb : (s == "") = false := beq_eq_false_iff_ne.mpr hs
  constructor <;> intro h
  · have hne : ((parse_env_entries s).filter validate_nvidia_domain).isEmpty = false := by
      simpa [List.isEmpty_iff] using h
    simp [resolve_default_domains, hb, hne]
  · simp [resolve_default_domains, hb, h]

/-- The environment override of `test`-style shape: one invalid and one
valid entry. -/
def env_override_example : String := "https://evil.com/, https://developer.nvidia.com/"

/-- Witness for C9: with one invalid and one valid entry, the resolved
set is the validated subset. -/
theorem c9_env_override_witness :
    resolve_default_domains (some env_override_example)
      = (parse_env_entries env_override_example).filter validate_nvidia_domain :=
  (c9_env_override_validates_and_falls_back env_override_example (by decide)).1 (by decide)

example : (parse_env_entries env_override_example).filter validate_nvidia_domain
    = ["https://developer.nvidia.com/"] := by decide
